import Mathlib

/-!
Shallow embedding of the Taxi-Dispatcher repository.

`TaxiDispatcher` embeds `src/public/app.js`: the WebRTC call lifecycle
controller (module-level state, `startCall`, `endCall`, `handleReconnection`,
`setupSessionExpiry`, the data-channel callbacks and `handleServerMessage`).

`SessionApi` embeds the rate-limiting and response logic of the serverless
token endpoint `src/api/session.js` (identical in `src/unnamed/part_000`).

Machine integers are embedded as `Int` (JS numbers; all the arithmetic here
stays far below 2^53, so no overflow modelling is needed). External effects
(fetch results, `getUserMedia`, SDP exchange) are passed in as an `Env`
record of outcomes; the live handles held in module-level variables are
embedded as `Bool`/`Option` fields of `AppState`.
-/

namespace TaxiDispatcher

/-- Connection states, app.js lines 20-28. -/
inductive ConnectionState
  | idle
  | connecting
  | connected
  | listening
  | thinking
  | disconnected
  | error
deriving DecidableEq, Repr

/-- Module-level mutable state of app.js (lines 31-42) plus the DOM surfaces
the code writes to (status text, error/warning divs, transcript).

`sessionExpiryTimeout` is the warning timer stored in the variable of the
same name (app.js line 37): `some d` means a warning timer is scheduled to
fire after delay `d` ms.  `hardStopTimers` records the hard-stop
`setTimeout(... endCall ...)` calls made at app.js line 165: the source
never stores their handles, so they accumulate in a list and nothing in the
embedding (as in the source) can cancel them.
`mediaStream` / `audioContext` hold an identity for the acquired capture
stream / rendering context so that replacement across a reconnect is
observable.  `errorDiv` is `some (msg, persistent)` when the error div is
visible. -/
structure AppState where
  peerConnection : Bool
  dataChannel : Bool
  audioContext : Option Int
  mediaStream : Option Int
  currentState : ConnectionState
  statusMessage : String
  reconnectAttempts : Nat
  sessionExpiryTimeout : Option Int
  hardStopTimers : List Int
  audioLevelInterval : Bool
  errorDiv : Option (String × Bool)
  warningDiv : Option String
  transcript : List String
  sessionId : Option String
  startBtnDisabled : Bool
  endBtnDisabled : Bool
deriving DecidableEq, Repr

/-- Initial module state: `currentState = IDLE`, no handles, counter 0. -/
def initialState : AppState :=
  { peerConnection := false
    dataChannel := false
    audioContext := none
    mediaStream := none
    currentState := .idle
    statusMessage := ""
    reconnectAttempts := 0
    sessionExpiryTimeout := none
    hardStopTimers := []
    audioLevelInterval := false
    errorDiv := none
    warningDiv := none
    transcript := []
    sessionId := none
    startBtnDisabled := false
    endBtnDisabled := true }

def MAX_RECONNECT_ATTEMPTS : Nat := 3

def RECONNECT_DELAY : Int := 2000

/-- Embeds `updateStatus` (app.js lines 45-50). -/
def updateStatus (state : ConnectionState) (message : String) (s : AppState) : AppState :=
  { s with currentState := state, statusMessage := message }

/-- Embeds `showError` (app.js lines 53-62). -/
def showError (message : String) (persistent : Bool) (s : AppState) : AppState :=
  { s with errorDiv := some (message, persistent) }

/-- Embeds `showWarning` (app.js lines 65-72). -/
def showWarning (message : String) (s : AppState) : AppState :=
  { s with warningDiv := some message }

/-- Embeds `hideMessages` (app.js lines 75-78). -/
def hideMessages (s : AppState) : AppState :=
  { s with errorDiv := none, warningDiv := none }

/-- Embeds `addTranscript` (app.js lines 81-102), abstracted to appending the
message text. -/
def addTranscript (entry : String) (s : AppState) : AppState :=
  { s with transcript := s.transcript ++ [entry] }

/-- Embeds `startAudioLevelMonitoring` (app.js lines 105-133): returns early when
either handle is missing; otherwise installs the interval (any internal
failure is caught and logged, never escalated). -/
def startAudioLevelMonitoring (s : AppState) : AppState :=
  if s.audioContext.isNone ∨ s.mediaStream.isNone then s
  else { s with audioLevelInterval := true }

/-- Embeds `stopAudioLevelMonitoring` (app.js lines 135-142). -/
def stopAudioLevelMonitoring (s : AppState) : AppState :=
  { s with audioLevelInterval := false }

/-- Embeds `setupSessionExpiry` (app.js lines 145-170).  `expiryTime` is
`new Date(expiresAt).getTime()` and `now` is `Date.now()`, both in ms.
Clears a pending warning timer, schedules the warning at
`timeUntilExpiry - 60000` when that is positive, and schedules the
hard-stop timeout at `timeUntilExpiry` when positive — the hard-stop
handle is discarded by the source, mirrored here by consing onto
`hardStopTimers`. -/
def setupSessionExpiry (expiryTime now : Int) (s : AppState) : AppState :=
  let s := { s with sessionExpiryTimeout := none }
  let timeUntilExpiry := expiryTime - now
  let warningTime := timeUntilExpiry - 60000
  let s :=
    if warningTime > 0 then { s with sessionExpiryTimeout := some warningTime } else s
  if timeUntilExpiry > 0 then
    { s with hardStopTimers := timeUntilExpiry :: s.hardStopTimers }
  else s

/-- Embeds `endCall` (app.js lines 533-604): clears the stored warning timer, stops
audio monitoring, closes channel / peer connection, stops tracks, closes the
audio context, and — when the state is not ERROR — moves to DISCONNECTED;
finally re-enables the start button and resets `reconnectAttempts` to 0.
`hardStopTimers` is untouched because the source never kept those handles. -/
def endCall (s : AppState) : AppState :=
  let s := { s with sessionExpiryTimeout := none }
  let s := stopAudioLevelMonitoring s
  let s := { s with dataChannel := false }
  let s := { s with peerConnection := false }
  let s := { s with mediaStream := none }
  let s := { s with audioContext := none }
  let s :=
    if s.currentState ≠ ConnectionState.error then
      addTranscript "Call ended. Click Start Call to begin a new conversation."
        (updateStatus .disconnected "Call ended" s)
    else s
  { s with startBtnDisabled := false, endBtnDisabled := true, reconnectAttempts := 0 }

/-- Outcome of the token request (app.js lines 199-243): network rejection,
non-ok response (with the user-facing message computed in lines 204-229),
ok but unparsable JSON, parsed but missing `client_secret`, or success. -/
inductive TokenOutcome
  | networkFailed (message : String)
  | httpFailed (status : Nat) (message : String)
  | badJson
  | missingSecret
  | ok (clientSecret sessionIdVal : String) (expiryTime : Int)
deriving DecidableEq, Repr

/-- Outcome of `getUserMedia` (app.js lines 254-271). -/
inductive MicOutcome
  | granted (streamId : Int)
  | denied
  | notFound
  | otherFailure (message : String)
deriving DecidableEq, Repr

/-- Outcomes of the external calls a single pass of `startCall` performs. -/
structure Env where
  tokenOutcome : TokenOutcome
  micOutcome : MicOutcome
  audioCtxId : Int
  sdpOk : Bool
  sdpStatus : Nat
  now : Int
deriving DecidableEq, Repr

/-- Which externally visible steps a `startCall` / `handleReconnection` run
performed. -/
structure Trace where
  tokenRequested : Bool
  micRequested : Bool
  handshakeAttempted : Bool
  retryScheduled : Bool
deriving DecidableEq, Repr

/-- The catch block of `startCall` (app.js lines 377-382): persistent error
notice, status ERROR, then `endCall()`. -/
def startFail (message : String) (s : AppState) : AppState :=
  endCall (updateStatus .error "Connection failed" (showError message true s))

/-- Embeds `startCall` (app.js lines 183-383) as a function of the external
outcomes.  Follows the source order: hide messages, status CONNECTING,
disable start button, token request, `displaySessionInfo` +
`setupSessionExpiry`, microphone, audio context, peer connection + data
channel creation, SDP exchange; any failure falls into `startFail`. -/
def startCall (env : Env) (s : AppState) : AppState × Trace :=
  let s := hideMessages s
  let s := updateStatus .connecting "Connecting to server..." s
  let s := { s with startBtnDisabled := true }
  match env.tokenOutcome with
  | .networkFailed m => (startFail m s, ⟨true, false, false, false⟩)
  | .httpFailed _ m => (startFail m s, ⟨true, false, false, false⟩)
  | .badJson =>
      (startFail "Invalid response from server. Make sure the API is running correctly." s,
       ⟨true, false, false, false⟩)
  | .missingSecret =>
      (startFail "Invalid session data received from server." s,
       ⟨true, false, false, false⟩)
  | .ok _ sid expiryTime =>
      let s := { s with sessionId := some sid }
      let s := setupSessionExpiry expiryTime env.now s
      let s := updateStatus .connecting "Requesting microphone access..." s
      match env.micOutcome with
      | .denied =>
          (startFail "Microphone access denied. Please allow microphone and try again." s,
           ⟨true, true, false, false⟩)
      | .notFound =>
          (startFail "No microphone found. Please connect a microphone and try again." s,
           ⟨true, true, false, false⟩)
      | .otherFailure m =>
          (startFail ("Failed to access microphone: " ++ m) s, ⟨true, true, false, false⟩)
      | .granted streamId =>
          let s := { s with mediaStream := some streamId }
          let s := { s with audioContext := some env.audioCtxId }
          let s := updateStatus .connecting "Establishing connection..." s
          let s := { s with peerConnection := true }
          let s := { s with dataChannel := true }
          if env.sdpOk then
            (s, ⟨true, true, true, false⟩)
          else
            (startFail ("Failed to connect to OpenAI: " ++ toString env.sdpStatus) s,
             ⟨true, true, true, false⟩)

/-- Embeds `dataChannel.onopen` (app.js lines 316-326): status CONNECTED, enable
end button, reset the reconnect counter, start audio monitoring, transcript
notice. -/
def dataChannelOnOpen (s : AppState) : AppState :=
  let s := updateStatus .connected "Connected! Start speaking..." s
  let s := { s with endBtnDisabled := false }
  let s := { s with reconnectAttempts := 0 }
  let s := startAudioLevelMonitoring s
  addTranscript "Connected successfully. The AI is ready to help you book a ride!" s

/-- Embeds `handleReconnection` (app.js lines 495-530).  At the bound: persistent
error notice and `endCall()`, no retry.  Below the bound: increment counter,
status CONNECTING, transcript notice, close peer connection and data
channel, wait `RECONNECT_DELAY`, then re-run the full `startCall`. -/
def handleReconnection (env : Env) (s : AppState) : AppState × Trace :=
  if s.reconnectAttempts ≥ MAX_RECONNECT_ATTEMPTS then
    (endCall (showError "Connection lost. Please start a new call." true s),
     ⟨false, false, false, false⟩)
  else
    let s := { s with reconnectAttempts := s.reconnectAttempts + 1 }
    let s := updateStatus .connecting "Reconnecting..." s
    let s := addTranscript "Connection lost. Attempting to reconnect..." s
    let s := { s with peerConnection := false }
    let s := { s with dataChannel := false }
    let r := startCall env s
    (r.1, { r.2 with retryScheduled := true })

/-- The `error` object of a server `error` event (app.js lines 474-482). -/
structure ServerErr where
  code : Option String
  message : Option String
deriving DecidableEq, Repr

/-- Decoded inbound control-channel messages, one constructor per `case` of
`handleServerMessage` (app.js lines 386-492).  `errorEvent none` is a
decoded object with `type: "error"` but no `error` field;
`functionCallDone` carries `none` when `JSON.parse(message.arguments)`
fails.  `unknownType` is any unrecognized discriminant. -/
inductive Msg
  | sessionCreated
  | sessionUpdated
  | speechStarted
  | speechStopped
  | inputTranscriptionCompleted (transcript : Option String)
  | inputTranscriptionFailed
  | responseCreated
  | responseDone
  | audioTranscriptDelta
  | audioTranscriptDone (transcript : Option String)
  | audioDelta
  | audioDone
  | functionCallDone (name : String) (bookingArgs : Option String)
  | errorEvent (err : Option ServerErr)
  | rateLimitsUpdated
  | unknownType (t : String)
deriving DecidableEq, Repr

/-- Embeds `handleServerMessage` (app.js lines 386-492).  `.error ()` models a
thrown JS exception: on `errorEvent none` the source evaluates
`message.error.message` with `message.error === undefined`, raising a
TypeError before any state change. -/
def handleServerMessage (m : Msg) (s : AppState) : Except Unit AppState :=
  match m with
  | .sessionCreated => .ok s
  | .sessionUpdated => .ok s
  | .speechStarted => .ok (updateStatus .listening "Listening to you..." s)
  | .speechStopped => .ok (updateStatus .thinking "AI is thinking..." s)
  | .inputTranscriptionCompleted t =>
      .ok (match t with
           | some tr => addTranscript ("user: " ++ tr) s
           | none => s)
  | .inputTranscriptionFailed => .ok s
  | .responseCreated => .ok (updateStatus .connected "AI is responding..." s)
  | .responseDone => .ok (updateStatus .connected "Ready for your response..." s)
  | .audioTranscriptDelta => .ok s
  | .audioTranscriptDone t =>
      .ok (match t with
           | some tr => addTranscript ("ai: " ++ tr) s
           | none => s)
  | .audioDelta => .ok s
  | .audioDone => .ok s
  | .functionCallDone name bookingArgs =>
      if name = "confirm_booking" then
        match bookingArgs with
        | some a => .ok (addTranscript ("Booking Confirmed! " ++ a) s)
        | none => .ok s
      else .ok s
  | .errorEvent none => .error ()
  | .errorEvent (some e) =>
      let s := showError (e.message.getD "An error occurred") false s
      if e.code = some "session_expired" then
        .ok (endCall (addTranscript "Session expired. Please start a new call." s))
      else .ok s
  | .rateLimitsUpdated => .ok s
  | .unknownType _ => .ok s

/-- Embeds `dataChannel.onmessage` (app.js lines 336-343): `none` is a payload on
which `JSON.parse` failed; any exception out of `handleServerMessage` is
caught by the same wrapper, logged, and the message dropped. -/
def dataChannelOnMessage (raw : Option Msg) (s : AppState) : AppState :=
  match raw with
  | none => s
  | some m =>
      match handleServerMessage m s with
      | .ok s' => s'
      | .error _ => s

/-- The hard-stop callback scheduled at app.js lines 165-168: system
transcript notice then `endCall()`; the fired timer leaves the pending
list. -/
def sessionHardStopFire (s : AppState) : AppState :=
  endCall (addTranscript "Session expired. Call ended automatically."
    { s with hardStopTimers := s.hardStopTimers.tail })

/-- The warning callback scheduled at app.js lines 158-160. -/
def sessionWarningFire (s : AppState) : AppState :=
  showWarning "Session expiring in 1 minute. Please end call and start a new one."
    { s with sessionExpiryTimeout := none }

/-- One event-loop step of app.js: a user click on start, a transport
failure entering `handleReconnection`, the data-channel open callback, an
inbound message (or undecodable payload), a user click on end (also the
beforeunload path), or one of the two expiry timers firing. -/
inductive AppStep : AppState → AppState → Prop
  | start (env : Env) (s : AppState) : AppStep s (startCall env s).1
  | reconnect (env : Env) (s : AppState) : AppStep s (handleReconnection env s).1
  | channelOpen (s : AppState) : AppStep s (dataChannelOnOpen s)
  | message (raw : Option Msg) (s : AppState) : AppStep s (dataChannelOnMessage raw s)
  | stop (s : AppState) : AppStep s (endCall s)
  | hardStop (s : AppState) : AppStep s (sessionHardStopFire s)
  | warnFire (s : AppState) : AppStep s (sessionWarningFire s)

/-- States reachable from the initial module state by event-loop steps. -/
inductive Reachable : AppState → Prop
  | init : Reachable initialState
  | step {s s' : AppState} : Reachable s → AppStep s s' → Reachable s'

/-- An environment in which every external step of `startCall` succeeds:
token `abc` for session `sess_1` expiring 3 600 000 ms after the clock value
0, microphone stream 1, audio context 7, SDP exchange ok. -/
def envOk : Env := ⟨.ok "abc" "sess_1" 3600000, .granted 1, 7, true, 200, 0⟩

/-- A second all-success environment with distinct session, stream and
context identities, used to observe replacement across a reconnect. -/
def envOk2 : Env := ⟨.ok "def" "sess_2" 3700000, .granted 2, 8, true, 200, 100⟩

/-- The state after a fully successful `startCall` from the initial state
followed by the data-channel open callback: a live connected call. -/
def sLive : AppState := dataChannelOnOpen (startCall envOk initialState).1

/-- State after one transport failure and successful reconnect pass from
`sLive` (the open callback has not fired yet, so the counter stays 1). -/
def r1 : AppState := (handleReconnection envOk sLive).1

/-- State after a second transport failure and reconnect pass. -/
def r2 : AppState := (handleReconnection envOk r1).1

/-- State after a third transport failure and reconnect pass: the counter
sits at the bound. -/
def r3 : AppState := (handleReconnection envOk r2).1

/-- Classifies an `Env` whose token request fails (any branch of app.js
lines 204-243 that throws). -/
def tokenFailed (env : Env) : Bool :=
  match env.tokenOutcome with
  | .ok _ _ _ => false
  | _ => true

/-- Classifies an `Env` whose `getUserMedia` call fails (app.js lines
263-271). -/
def micFailed (env : Env) : Bool :=
  match env.micOutcome with
  | .granted _ => false
  | _ => true

/-- Some step of the initial start sequence fails. -/
def startFails (env : Env) : Bool :=
  tokenFailed env || micFailed env || !env.sdpOk

end TaxiDispatcher

namespace SessionApi

def MAX_SESSIONS_PER_IP : Nat := 10

def RATE_LIMIT_WINDOW : Int := 3600000

/-- One `rateLimitMap` entry for a client IP (session.js lines 29-43). -/
structure RLEntry where
  count : Nat
  timestamp : Int
deriving DecidableEq, Repr

/-- The rate-limiting block of the handler (session.js lines 28-43) for one
IP: `true` means the request passes the limiter (and the map is updated),
`false` means the 429 early return (map untouched). -/
def rateLimitCheck (now : Int) (st : Option RLEntry) : Bool × Option RLEntry :=
  match st with
  | some e =>
      if now - e.timestamp < RATE_LIMIT_WINDOW then
        if e.count ≥ MAX_SESSIONS_PER_IP then (false, some e)
        else (true, some { e with count := e.count + 1 })
      else (true, some ⟨1, now⟩)
  | none => (true, some ⟨1, now⟩)

/-- The cleanup loop (session.js lines 46-50), restricted to the one IP the
request came from: entries with `now - timestamp > RATE_LIMIT_WINDOW` are
deleted.  It runs only on requests that passed the limiter (the 429 branch
returns before it). -/
def cleanupEntry (now : Int) (st : Option RLEntry) : Option RLEntry :=
  match st with
  | some e => if now - e.timestamp > RATE_LIMIT_WINDOW then none else some e
  | none => none

/-- Effect of one POST request on the stored entry for its IP: the limiter
check, then the cleanup loop when the request was admitted. -/
def rlStep (now : Int) (st : Option RLEntry) : Bool × Option RLEntry :=
  match rateLimitCheck now st with
  | (true, st') => (true, cleanupEntry now st')
  | (false, st') => (false, st')

/-- Fold `rlStep` over a list of request times for one IP. -/
def rlRun : List Int → Option RLEntry → List Bool × Option RLEntry
  | [], st => ([], st)
  | t :: ts, st =>
      let r := rlStep t st
      let rs := rlRun ts r.2
      (r.1 :: rs.1, rs.2)

/-- Number of admitted requests in a decision list. -/
def countAdmitted (ds : List Bool) : Nat := (ds.filter id).length

/-- Response of the serverless handler as far as the claims observe it:
HTTP status, the `error` field of the JSON body when present, and whether a
request was forwarded to the remote session API. -/
structure ApiResponse where
  status : Nat
  errorBody : Option String
  forwarded : Bool
deriving DecidableEq, Repr

/-- Embeds `handler` (session.js lines 9-316): OPTIONS preflight, 405 on non-POST,
the rate limiter (429 early return before any upstream call), cleanup, the
API-key guard, then the upstream fetch whose outcome is passed in as
`upstreamOk`/`upstreamStatus` (a thrown fetch error is subsumed in the
non-ok case as the 500 catch branch, session.js lines 306-315). -/
def sessionHandler (method : String) (now : Int) (st : Option RLEntry)
    (apiKeyValid upstreamOk : Bool) (upstreamStatus : Nat) :
    ApiResponse × Option RLEntry :=
  if method = "OPTIONS" then (⟨200, none, false⟩, st)
  else if method ≠ "POST" then (⟨405, some "Method not allowed", false⟩, st)
  else
    match rateLimitCheck now st with
    | (false, st') =>
        (⟨429, some "Too many requests. Please try again later.", false⟩, st')
    | (true, st') =>
        let st' := cleanupEntry now st'
        if ¬ apiKeyValid then (⟨500, some "Server configuration error", false⟩, st')
        else if upstreamOk then (⟨200, none, true⟩, st')
        else (⟨upstreamStatus, some "Failed to create session with OpenAI", true⟩, st')

end SessionApi

namespace TaxiDispatcher

theorem endCall_attempts (s : AppState) : (endCall s).reconnectAttempts = 0 := by
  simp only [endCall]

theorem endCall_currentState (s : AppState) :
    (endCall s).currentState =
      if s.currentState = ConnectionState.error then ConnectionState.error
      else ConnectionState.disconnected := by
  simp only [endCall, stopAudioLevelMonitoring, addTranscript, updateStatus]
  by_cases h : s.currentState = ConnectionState.error <;> simp [h]

theorem endCall_clears (s : AppState) :
    (endCall s).peerConnection = false ∧ (endCall s).dataChannel = false ∧
    (endCall s).mediaStream = none ∧ (endCall s).audioContext = none ∧
    (endCall s).sessionExpiryTimeout = none ∧ (endCall s).audioLevelInterval = false := by
  simp only [endCall, stopAudioLevelMonitoring, addTranscript, updateStatus]
  split <;> exact ⟨rfl, rfl, rfl, rfl, rfl, rfl⟩

theorem endCall_hardStopTimers (s : AppState) :
    (endCall s).hardStopTimers = s.hardStopTimers := by
  simp only [endCall, stopAudioLevelMonitoring, addTranscript, updateStatus]
  split <;> rfl

theorem endCall_errorDiv (s : AppState) : (endCall s).errorDiv = s.errorDiv := by
  simp only [endCall, stopAudioLevelMonitoring, addTranscript, updateStatus]
  split <;> rfl

theorem startCall_attempts_le (env : Env) (s : AppState)
    (h : s.reconnectAttempts ≤ MAX_RECONNECT_ATTEMPTS) :
    (startCall env s).1.reconnectAttempts ≤ MAX_RECONNECT_ATTEMPTS := by
  obtain ⟨tk, mo, a, sdp, st, now⟩ := env
  cases tk <;> cases mo <;> cases sdp <;>
    simp_all [startCall, startFail, endCall_attempts, hideMessages, updateStatus,
      setupSessionExpiry, MAX_RECONNECT_ATTEMPTS]
  all_goals (try (split_ifs <;> simp_all))

theorem handleReconnection_attempts_le (env : Env) (s : AppState) :
    (handleReconnection env s).1.reconnectAttempts ≤ MAX_RECONNECT_ATTEMPTS := by
  unfold handleReconnection
  split
  · simp [endCall_attempts]
  · next hlt =>
      simp only [addTranscript, updateStatus]
      apply startCall_attempts_le
      simp only [MAX_RECONNECT_ATTEMPTS] at hlt ⊢
      simp only [ge_iff_le, not_le] at hlt
      simp
      omega

theorem dataChannelOnOpen_attempts (s : AppState) :
    (dataChannelOnOpen s).reconnectAttempts = 0 := by
  simp only [dataChannelOnOpen, startAudioLevelMonitoring, addTranscript, updateStatus]
  split <;> rfl

theorem dataChannelOnMessage_attempts (raw : Option Msg) (s : AppState) :
    (dataChannelOnMessage raw s).reconnectAttempts = 0 ∨
    (dataChannelOnMessage raw s).reconnectAttempts = s.reconnectAttempts := by
  cases raw with
  | none => exact Or.inr rfl
  | some m =>
      cases m with
      | inputTranscriptionCompleted t =>
          cases t <;> simp [dataChannelOnMessage, handleServerMessage, addTranscript]
      | audioTranscriptDone t =>
          cases t <;> simp [dataChannelOnMessage, handleServerMessage, addTranscript]
      | functionCallDone name args =>
          cases args <;> simp only [dataChannelOnMessage, handleServerMessage] <;>
            split_ifs <;> simp [addTranscript]
      | errorEvent err =>
          cases err with
          | none => simp [dataChannelOnMessage, handleServerMessage]
          | some e =>
              simp only [dataChannelOnMessage, handleServerMessage]
              split_ifs <;> simp [endCall_attempts, addTranscript, showError]
      | _ => simp [dataChannelOnMessage, handleServerMessage, updateStatus]

theorem sessionHardStopFire_attempts (s : AppState) :
    (sessionHardStopFire s).reconnectAttempts = 0 := by
  simp [sessionHardStopFire, endCall_attempts]

theorem appStep_attempts_le {s s' : AppState} (hstep : AppStep s s')
    (h : s.reconnectAttempts ≤ MAX_RECONNECT_ATTEMPTS) :
    s'.reconnectAttempts ≤ MAX_RECONNECT_ATTEMPTS := by
  cases hstep with
  | start env s => exact startCall_attempts_le env s h
  | reconnect env s => exact handleReconnection_attempts_le env s
  | channelOpen s => simp [dataChannelOnOpen_attempts]
  | message raw s =>
      rcases dataChannelOnMessage_attempts raw s with h0 | h0 <;> rw [h0]
      · exact Nat.zero_le _
      · exact h
  | stop s => simp [endCall_attempts]
  | hardStop s => simp [sessionHardStopFire_attempts]
  | warnFire s => exact h

theorem reachable_attempts_le {s : AppState} (h : Reachable s) :
    s.reconnectAttempts ≤ MAX_RECONNECT_ATTEMPTS := by
  induction h with
  | init => decide
  | step _ hstep ih => exact appStep_attempts_le hstep ih

theorem reachable_sLive : Reachable sLive :=
  Reachable.step (Reachable.step Reachable.init (AppStep.start envOk initialState))
    (AppStep.channelOpen _)

theorem reachable_r3 : Reachable r3 :=
  Reachable.step
    (Reachable.step (Reachable.step reachable_sLive (AppStep.reconnect envOk sLive))
      (AppStep.reconnect envOk r1))
    (AppStep.reconnect envOk r2)

/-- Claim C1, evaluated at the failing input: in the reachable state `sLive`
(after a successful start the hard-stop timer list holds one pending timer)
`endCall` moves to DISCONNECTED and releases the transport, the control
channel, the capture stream, the audio context and the warning timer — but
the hard-stop expiry timer is still pending afterwards, because the
`setTimeout` handle created at app.js line 165 was never stored and so can
never be cancelled.  The claim that both expiry timers are released is
false on the code. -/
theorem endCall_leaves_hard_timer :
    Reachable sLive ∧
    sLive.hardStopTimers = [3600000] ∧
    (endCall sLive).currentState = ConnectionState.disconnected ∧
    (endCall sLive).peerConnection = false ∧
    (endCall sLive).dataChannel = false ∧
    (endCall sLive).mediaStream = none ∧
    (endCall sLive).audioContext = none ∧
    (endCall sLive).sessionExpiryTimeout = none ∧
    (endCall sLive).audioLevelInterval = false ∧
    (endCall sLive).hardStopTimers = [3600000] ∧
    (endCall sLive).hardStopTimers ≠ [] :=
  ⟨reachable_sLive, rfl, rfl, rfl, rfl, rfl, rfl, rfl, rfl, rfl, by decide⟩

/-- Claim C2 (amended): in every reachable state the reconnect counter is at
most MAX_RECONNECT_ATTEMPTS = 3, and a transport failure handled with the
counter at the bound performs no further external step (no token request,
no retry scheduling) and ends in DISCONNECTED — ERROR only if the status
was already ERROR — via the teardown path. -/
theorem reconnect_counter_bounded {s : AppState} (hs : Reachable s) :
    s.reconnectAttempts ≤ MAX_RECONNECT_ATTEMPTS ∧
    ∀ env : Env, s.reconnectAttempts = MAX_RECONNECT_ATTEMPTS →
      (handleReconnection env s).2 = ⟨false, false, false, false⟩ ∧
      (handleReconnection env s).1.currentState =
        (if s.currentState = ConnectionState.error then ConnectionState.error
         else ConnectionState.disconnected) := by
  refine ⟨reachable_attempts_le hs, ?_⟩
  intro env h3
  unfold handleReconnection
  rw [if_pos (by omega)]
  refine ⟨rfl, ?_⟩
  rw [endCall_currentState]
  simp [showError]

/-- Claim C2 witness: the reachable state `r3` has the counter at the bound
and exhaustion there schedules nothing further. -/
theorem reconnect_counter_bounded_witness :
    r3.reconnectAttempts ≤ MAX_RECONNECT_ATTEMPTS ∧
    (handleReconnection envOk r3).2 = ⟨false, false, false, false⟩ :=
  ⟨(reconnect_counter_bounded reachable_r3).1,
   ((reconnect_counter_bounded reachable_r3).2 envOk rfl).1⟩

/-- Claim C2 counterexample: in the reachable state `r3` the counter is at
the bound, yet the next transport failure ends in status DISCONNECTED, not
ERROR as the claim states. -/
theorem reconnect_exhaustion_not_error :
    Reachable r3 ∧ r3.reconnectAttempts = MAX_RECONNECT_ATTEMPTS ∧
    (handleReconnection envOk r3).1.currentState = ConnectionState.disconnected ∧
    ¬ (handleReconnection envOk r3).1.currentState = ConnectionState.error :=
  ⟨reachable_r3, rfl, rfl, by decide⟩

/-- Claim C3 counterexample: from the live connected state, a reconnect
below the bound re-runs the token request and the microphone acquisition,
and replaces the capture stream and the session rather than preserving
them, contradicting the claim that the retry starts at the transport step
and preserves the Session and the Resource Acquirer outputs. -/
theorem reconnect_reruns_token_and_mic :
    sLive.mediaStream = some 1 ∧ sLive.sessionId = some "sess_1" ∧
    sLive.reconnectAttempts = 0 ∧
    (handleReconnection envOk2 sLive).2.tokenRequested = true ∧
    (handleReconnection envOk2 sLive).2.micRequested = true ∧
    (handleReconnection envOk2 sLive).1.mediaStream = some 2 ∧
    ¬ (handleReconnection envOk2 sLive).1.mediaStream = sLive.mediaStream ∧
    ¬ (handleReconnection envOk2 sLive).1.sessionId = sLive.sessionId :=
  ⟨rfl, rfl, rfl, rfl, rfl, rfl, by decide, by decide⟩

/-- Claim C3 (amended): a transport failure handled below the bound
increments the counter, tears down the peer connection and control channel,
schedules the backoff retry, and then re-runs the ENTIRE start sequence —
the token request and the microphone acquisition run again, and on success
the capture stream, the audio context and the session are replaced by the
fresh ones from the new environment, not preserved. -/
theorem handleReconnection_full_restart (env : Env) (s : AppState)
    (cs sid : String) (exp mid : Int)
    (hlt : s.reconnectAttempts < MAX_RECONNECT_ATTEMPTS)
    (htok : env.tokenOutcome = .ok cs sid exp)
    (hmic : env.micOutcome = .granted mid)
    (hsdp : env.sdpOk = true) :
    (handleReconnection env s).2 = ⟨true, true, true, true⟩ ∧
    (handleReconnection env s).1.reconnectAttempts = s.reconnectAttempts + 1 ∧
    (handleReconnection env s).1.mediaStream = some mid ∧
    (handleReconnection env s).1.audioContext = some env.audioCtxId ∧
    (handleReconnection env s).1.sessionId = some sid ∧
    (handleReconnection env s).1.peerConnection = true ∧
    (handleReconnection env s).1.dataChannel = true := by
  obtain ⟨tk, mo, a, sdp, st, now⟩ := env
  simp only at htok hmic hsdp
  subst htok; subst hmic; subst hsdp
  unfold handleReconnection
  rw [if_neg (by omega)]
  simp only [startCall, hideMessages, updateStatus, addTranscript, setupSessionExpiry]
  split_ifs <;> simp_all

/-- Claim C3 witness: a concrete reconnect pass from the initial state with
an all-success environment. -/
theorem handleReconnection_full_restart_witness :
    initialState.reconnectAttempts < MAX_RECONNECT_ATTEMPTS ∧
    envOk.tokenOutcome = .ok "abc" "sess_1" 3600000 ∧
    envOk.micOutcome = .granted 1 ∧
    envOk.sdpOk = true ∧
    (handleReconnection envOk initialState).2 = ⟨true, true, true, true⟩ ∧
    (handleReconnection envOk initialState).1.mediaStream = some 1 := by
  have h := handleReconnection_full_restart envOk initialState "abc" "sess_1" 3600000 1
    (by decide) rfl rfl rfl
  exact ⟨by decide, rfl, rfl, rfl, h.1, h.2.2.1⟩

/-- Claim C4: when the session expiry lies in the future, the warning timer
is scheduled at delay `expiryTime - now - 60000` (so it fires at exactly
`expiresAt - 60s`) when the expiry is more than 60 s away and is not
scheduled otherwise, while the hard-stop timer is always scheduled at delay
`expiryTime - now` (firing at `expiresAt`), and the hard-stop callback runs
the full teardown. -/
theorem setupSessionExpiry_timers (expiryTime now : Int) (s : AppState)
    (h : now < expiryTime) :
    (60000 < expiryTime - now →
      (setupSessionExpiry expiryTime now s).sessionExpiryTimeout
        = some (expiryTime - now - 60000) ∧
      now + (expiryTime - now - 60000) = expiryTime - 60000) ∧
    (expiryTime - now ≤ 60000 →
      (setupSessionExpiry expiryTime now s).sessionExpiryTimeout = none) ∧
    (setupSessionExpiry expiryTime now s).hardStopTimers
      = (expiryTime - now) :: s.hardStopTimers ∧
    (∀ t : AppState, (sessionHardStopFire t).peerConnection = false ∧
      (sessionHardStopFire t).dataChannel = false ∧
      (sessionHardStopFire t).mediaStream = none ∧
      (sessionHardStopFire t).audioContext = none ∧
      (sessionHardStopFire t).sessionExpiryTimeout = none) := by
  refine ⟨?_, ?_, ?_, ?_⟩
  · intro hgt
    unfold setupSessionExpiry
    rw [if_pos (by omega)]
    rw [if_pos (by omega)]
    exact ⟨rfl, by omega⟩
  · intro hle
    simp only [setupSessionExpiry]
    split_ifs <;> first | omega | rfl
  · simp only [setupSessionExpiry]
    split_ifs <;> first | omega | rfl
  · intro t
    have hc := endCall_clears (addTranscript "Session expired. Call ended automatically."
      { t with hardStopTimers := t.hardStopTimers.tail })
    exact ⟨hc.1, hc.2.1, hc.2.2.1, hc.2.2.2.1, hc.2.2.2.2.1⟩

/-- Claim C4 witness: with the clock at 0, an expiry of 3 600 000 ms
schedules the warning at 3 540 000 ms and the hard stop at 3 600 000 ms; an
expiry of 30 000 ms schedules no warning but still schedules the hard
stop. -/
theorem setupSessionExpiry_timers_witness :
    ((0:Int) < 3600000 ∧
      (setupSessionExpiry 3600000 0 initialState).sessionExpiryTimeout = some 3540000 ∧
      (setupSessionExpiry 3600000 0 initialState).hardStopTimers = [3600000]) ∧
    ((0:Int) < 30000 ∧
      (setupSessionExpiry 30000 0 initialState).sessionExpiryTimeout = none ∧
      (setupSessionExpiry 30000 0 initialState).hardStopTimers = [30000]) := by
  have h1 := setupSessionExpiry_timers 3600000 0 initialState (by decide)
  have h2 := setupSessionExpiry_timers 30000 0 initialState (by decide)
  exact ⟨⟨by decide, (h1.1 (by decide)).1, h1.2.2.1⟩,
         ⟨by decide, h2.2.1 (by decide), h2.2.2.1⟩⟩

/-- Claim C5: handling an inbound `error` message whose error carries the
`session_expired` code runs the full teardown within the message handler
itself (no timer involved) and leaves status DISCONNECTED with every handle
released. -/
theorem serverError_sessionExpired_teardown (s : AppState)
    (h : ¬ s.currentState = ConnectionState.error) :
    (dataChannelOnMessage
        (some (.errorEvent (some ⟨some "session_expired", some "x"⟩))) s).currentState
      = ConnectionState.disconnected ∧
    (dataChannelOnMessage
        (some (.errorEvent (some ⟨some "session_expired", some "x"⟩))) s).peerConnection = false ∧
    (dataChannelOnMessage
        (some (.errorEvent (some ⟨some "session_expired", some "x"⟩))) s).dataChannel = false ∧
    (dataChannelOnMessage
        (some (.errorEvent (some ⟨some "session_expired", some "x"⟩))) s).mediaStream = none ∧
    (dataChannelOnMessage
        (some (.errorEvent (some ⟨some "session_expired", some "x"⟩))) s).audioContext = none ∧
    (dataChannelOnMessage
        (some (.errorEvent (some ⟨some "session_expired", some "x"⟩))) s).sessionExpiryTimeout
      = none := by
  simp only [dataChannelOnMessage, handleServerMessage]
  rw [if_pos trivial]
  have hc := endCall_clears (addTranscript "Session expired. Please start a new call."
    (showError (Option.getD (some "x") "An error occurred") false s))
  refine ⟨?_, hc.1, hc.2.1, hc.2.2.1, hc.2.2.2.1, hc.2.2.2.2.1⟩
  rw [endCall_currentState]
  simp [addTranscript, showError, h]

/-- Claim C5 witness: the session-expired error message tears the live
connected state down to DISCONNECTED. -/
theorem serverError_sessionExpired_teardown_witness :
    ¬ sLive.currentState = ConnectionState.error ∧
    (dataChannelOnMessage
        (some (.errorEvent (some ⟨some "session_expired", some "x"⟩))) sLive).currentState
      = ConnectionState.disconnected :=
  ⟨by decide, (serverError_sessionExpired_teardown sLive (by decide)).1⟩

theorem startFail_state (m : String) (s : AppState) :
    (startFail m s).currentState = ConnectionState.error ∧
    (startFail m s).errorDiv = some (m, true) ∧
    (startFail m s).peerConnection = false ∧
    (startFail m s).dataChannel = false ∧
    (startFail m s).mediaStream = none ∧
    (startFail m s).audioContext = none ∧
    (startFail m s).sessionExpiryTimeout = none := by
  unfold startFail
  have hc := endCall_clears (updateStatus .error "Connection failed" (showError m true s))
  refine ⟨?_, ?_, hc.1, hc.2.1, hc.2.2.1, hc.2.2.2.1, hc.2.2.2.2.1⟩
  · rw [endCall_currentState]; simp [updateStatus, showError]
  · rw [endCall_errorDiv]; simp [updateStatus, showError]

/-- Claim C6: every failure of the initial start sequence (token request,
microphone acquisition, or SDP handshake) short-circuits the remaining
steps — a token failure skips the microphone request and the handshake, a
microphone failure skips the handshake — runs the full teardown, leaves
status ERROR with a persistent user-facing error notice, and schedules no
automatic retry. -/
theorem startCall_failure_terminal (env : Env) (s : AppState)
    (h : startFails env = true) :
    (startCall env s).1.currentState = ConnectionState.error ∧
    (startCall env s).1.errorDiv.map Prod.snd = some true ∧
    (startCall env s).1.peerConnection = false ∧
    (startCall env s).1.dataChannel = false ∧
    (startCall env s).1.mediaStream = none ∧
    (startCall env s).1.audioContext = none ∧
    (startCall env s).1.sessionExpiryTimeout = none ∧
    (startCall env s).2.retryScheduled = false ∧
    (tokenFailed env = true → (startCall env s).2.micRequested = false ∧
      (startCall env s).2.handshakeAttempted = false) ∧
    (tokenFailed env = false → micFailed env = true →
      (startCall env s).2.handshakeAttempted = false) := by
  obtain ⟨tk, mo, a, sdp, st, now⟩ := env
  cases tk <;> cases mo <;> cases sdp <;>
    simp_all [startCall, startFails, tokenFailed, micFailed, startFail_state,
      hideMessages, updateStatus, setupSessionExpiry]

/-- Claim C6 witness: a denied microphone during start ends in ERROR with no
handshake attempted. -/
theorem startCall_failure_terminal_witness :
    startFails ⟨.ok "abc" "sess_1" 3600000, .denied, 7, true, 200, 0⟩ = true ∧
    (startCall ⟨.ok "abc" "sess_1" 3600000, .denied, 7, true, 200, 0⟩
        initialState).1.currentState = ConnectionState.error ∧
    (startCall ⟨.ok "abc" "sess_1" 3600000, .denied, 7, true, 200, 0⟩
        initialState).2.handshakeAttempted = false := by
  have h := startCall_failure_terminal ⟨.ok "abc" "sess_1" 3600000, .denied, 7, true, 200, 0⟩
    initialState (by decide)
  exact ⟨by decide, h.1, h.2.2.2.2.2.2.2.2.2 rfl rfl⟩

/-- Claim C7: a payload on which JSON decoding fails is dropped with the
state unchanged, and a decoded message with an unrecognized discriminant
leaves the handler without an exception and the state (in particular the
connection status) unchanged. -/
theorem unknown_and_undecodable_ignored (s : AppState) (t : String) :
    dataChannelOnMessage none s = s ∧
    handleServerMessage (.unknownType t) s = .ok s ∧
    dataChannelOnMessage (some (.unknownType t)) s = s :=
  ⟨rfl, rfl, rfl⟩

/-- Claim C8: the control-channel open callback always sets status CONNECTED
and resets the reconnect counter to 0, whatever the prior state and counter
value. -/
theorem channelOpen_connected_resets (s : AppState) :
    (dataChannelOnOpen s).currentState = ConnectionState.connected ∧
    (dataChannelOnOpen s).reconnectAttempts = 0 := by
  constructor
  · simp only [dataChannelOnOpen, startAudioLevelMonitoring, addTranscript, updateStatus]
    split <;> rfl
  · exact dataChannelOnOpen_attempts s

/-- Claim C9: a decoded message with discriminant `error` but no `error`
field makes `handleServerMessage` throw (the access to the missing field)
before any state change; the onmessage wrapper catches it and drops the
message, so the state — status, handles, error notice — is left exactly as
it was. -/
theorem error_event_without_payload_dropped (s : AppState) :
    handleServerMessage (.errorEvent none) s = .error () ∧
    dataChannelOnMessage (some (.errorEvent none)) s = s :=
  ⟨rfl, rfl⟩

end TaxiDispatcher

namespace SessionApi

theorem rlStep_reject (now ts : Int) (c : Nat)
    (hw : now - ts < RATE_LIMIT_WINDOW) (hc : c ≥ MAX_SESSIONS_PER_IP) :
    rlStep now (some ⟨c, ts⟩) = (false, some ⟨c, ts⟩) := by
  simp [rlStep, rateLimitCheck, hw, hc]

theorem rlStep_admit (now ts : Int) (c : Nat)
    (hw : now - ts < RATE_LIMIT_WINDOW) (hc : c < MAX_SESSIONS_PER_IP) :
    rlStep now (some ⟨c, ts⟩) = (true, some ⟨c + 1, ts⟩) := by
  simp only [rlStep, rateLimitCheck, cleanupEntry]
  rw [if_pos hw, if_neg (by simp; omega)]
  simp only []
  rw [if_neg (by simp only [RATE_LIMIT_WINDOW] at hw ⊢; omega)]

theorem rlStep_elapsed (now ts : Int) (c : Nat)
    (hw : now - ts ≥ RATE_LIMIT_WINDOW) :
    rlStep now (some ⟨c, ts⟩) = (true, some ⟨1, now⟩) := by
  simp only [rlStep, rateLimitCheck, cleanupEntry]
  rw [if_neg (by simp; omega)]
  simp only []
  rw [if_neg (by simp only [RATE_LIMIT_WINDOW]; omega)]

theorem rlRun_window_bound (reqs : List Int) (c : Nat) (ts : Int)
    (hc : c ≤ MAX_SESSIONS_PER_IP)
    (hreqs : ∀ t ∈ reqs, ts ≤ t ∧ t - ts < RATE_LIMIT_WINDOW) :
    countAdmitted (rlRun reqs (some ⟨c, ts⟩)).1 + c ≤ MAX_SESSIONS_PER_IP := by
  induction reqs generalizing c with
  | nil => simpa [rlRun, countAdmitted]
  | cons t rest ih =>
      have ht := hreqs t (by simp)
      have hrest : ∀ u ∈ rest, ts ≤ u ∧ u - ts < RATE_LIMIT_WINDOW :=
        fun u hu => hreqs u (by simp [hu])
      by_cases hfull : c ≥ MAX_SESSIONS_PER_IP
      · have hstep := rlStep_reject t ts c ht.2 hfull
        have hrec := ih c hc hrest
        simp only [rlRun, hstep, countAdmitted] at hrec ⊢
        simpa using hrec
      · have hstep := rlStep_admit t ts c ht.2 (by omega)
        have hrec := ih (c + 1) (by omega) hrest
        simp only [rlRun, hstep, countAdmitted] at hrec ⊢
        simp only [List.filter] at hrec ⊢
        simp
        omega

/-- Claim C10: for one client IP, (a) in any sequence of POST requests whose
times all fall within RATE_LIMIT_WINDOW of the first (admitted) request, at
most MAX_SESSIONS_PER_IP = 10 are admitted; (b) a request arriving inside
the window with the stored count already at the bound is answered 429 with
a JSON error body, the stored entry unchanged and nothing forwarded to the
remote session API; (c) a request arriving once the window has elapsed is
admitted and restarts the count at 1 with a fresh window timestamp. -/
theorem rate_limiter_spec :
    (∀ (t0 : Int) (reqs : List Int),
        (∀ t ∈ reqs, t0 ≤ t ∧ t - t0 < RATE_LIMIT_WINDOW) →
        countAdmitted (rlRun (t0 :: reqs) none).1 ≤ MAX_SESSIONS_PER_IP) ∧
    (∀ (c : Nat) (ts now : Int) (apiKeyValid upstreamOk : Bool) (upstreamStatus : Nat),
        now - ts < RATE_LIMIT_WINDOW → c ≥ MAX_SESSIONS_PER_IP →
        sessionHandler "POST" now (some ⟨c, ts⟩) apiKeyValid upstreamOk upstreamStatus =
          (⟨429, some "Too many requests. Please try again later.", false⟩, some ⟨c, ts⟩)) ∧
    (∀ (c : Nat) (ts now : Int), now - ts ≥ RATE_LIMIT_WINDOW →
        rlStep now (some ⟨c, ts⟩) = (true, some ⟨1, now⟩)) := by
  refine ⟨?_, ?_, ?_⟩
  · intro t0 reqs hreqs
    have h0 : rlStep t0 none = (true, some ⟨1, t0⟩) := by
      simp [rlStep, rateLimitCheck, cleanupEntry, RATE_LIMIT_WINDOW]
    have hb := rlRun_window_bound reqs 1 t0 (by simp [MAX_SESSIONS_PER_IP]) hreqs
    simp only [rlRun, h0, countAdmitted] at hb ⊢
    simp only [List.filter] at hb ⊢
    simp
    omega
  · intro c ts now key up ust hw hc
    simp [sessionHandler, rateLimitCheck, hw, hc]
  · intro c ts now hw
    exact rlStep_elapsed now ts c hw

/-- Claim C10 witness: the 11th request inside the window is answered 429
without forwarding; 12 in-window requests admit at most 10; a request a
full window later restarts the count at 1. -/
theorem rate_limiter_spec_witness :
    ((5:Int) - 0 < RATE_LIMIT_WINDOW ∧ (10:Nat) ≥ MAX_SESSIONS_PER_IP ∧
      sessionHandler "POST" 5 (some ⟨10, 0⟩) true true 200 =
        (⟨429, some "Too many requests. Please try again later.", false⟩, some ⟨10, 0⟩)) ∧
    countAdmitted (rlRun [0, 1, 2, 3, 4, 5, 6, 7, 8, 9, 10, 11] none).1
      ≤ MAX_SESSIONS_PER_IP ∧
    (3600000:Int) - 0 ≥ RATE_LIMIT_WINDOW ∧
    rlStep 3600000 (some ⟨4, 0⟩) = (true, some ⟨1, 3600000⟩) := by
  refine ⟨⟨by decide, by decide,
    rate_limiter_spec.2.1 10 0 5 true true 200 (by decide) (by decide)⟩, ?_, by decide,
    rate_limiter_spec.2.2 4 0 3600000 (by decide)⟩
  exact rate_limiter_spec.1 0 [1, 2, 3, 4, 5, 6, 7, 8, 9, 10, 11] (by decide)

end SessionApi
